import Mathlib

/-!
Verification of the M5StackTemperature sensor node (src/src/main.cpp).

The shallow embedding below translates the duty-cycle power scheduler of the
firmware: the RTC-persistent fields, the deadline-extension routine
prolongSleep, the duty-cycle toggle, the random temperature generator
updateRandTemp, the BLE connect/disconnect/read callbacks, and the tail of
the control loop that decides whether to enter deep sleep.  Timestamps are
seconds (time_t), modelled as Int; the pseudo-random source rand() is a
nonnegative machine integer, modelled as a Nat parameter.
-/

namespace M5Temp

/-- Seconds awake per duty cycle (main.cpp line 38, DUTY_CYCLE_AWAKE = 2). -/
def DUTY_CYCLE_AWAKE : Int := 2

/-- Seconds asleep per duty cycle (main.cpp line 39, DUTY_CYCLE_SLEEP = 4). -/
def DUTY_CYCLE_SLEEP : Int := 4

/-- Seconds granted after BLE activity (main.cpp line 40, ACTIVITY_TIMEOUT = 8). -/
def ACTIVITY_TIMEOUT : Int := 8

/-- Device state: the four RTC_DATA_ATTR fields that survive deep sleep
(main.cpp lines 45-50: timestamp, sleepTarget, dutyCycle, curTemp) together
with the volatile global deviceConnected (line 33), which lives in ordinary
memory and is reinitialized to false on every boot. -/
structure DeviceState where
  timestamp : Int
  sleepTarget : Int
  dutyCycle : Bool
  curTemp : Int
  deviceConnected : Bool
deriving DecidableEq, Repr

/-- The all-zero boot state the RTC fields hold after full power loss
(main.cpp lines 45-50 initialize every persistent field to 0 / false). -/
def initialState : DeviceState :=
  { timestamp := 0, sleepTarget := 0, dutyCycle := false, curTemp := 0,
    deviceConnected := false }

/-- Decision produced by the tail of the control loop: keep running, or order
a deep sleep of the given number of seconds. -/
inductive Decision where
  | Continue : Decision
  | EnterSleep : Int → Decision
deriving DecidableEq, Repr

/-- Power command issued by a BLE callback: nothing, or an immediate deep
sleep of the given number of milliseconds. -/
inductive PowerCmd where
  | none : PowerCmd
  | deepSleepMsec : Int → PowerCmd
deriving DecidableEq, Repr

/-- prolongSleep (main.cpp lines 52-55): sample the clock into sleepTarget,
then add the extension.  The clock value at call time is the parameter now. -/
def prolongSleep (seconds : Int) (now : Int) (s : DeviceState) : DeviceState :=
  { s with sleepTarget := now + seconds }

/-- Tail of loop (main.cpp lines 178-182): sample the clock into timestamp,
then enter deep sleep for DUTY_CYCLE_SLEEP seconds exactly when dutyCycle is
set and the sampled time exceeds sleepTarget. -/
def loopEvaluate (s : DeviceState) (now : Int) : DeviceState × Decision :=
  let s1 : DeviceState := { s with timestamp := now }
  if s1.dutyCycle = true ∧ s1.sleepTarget < now then
    (s1, Decision.EnterSleep DUTY_CYCLE_SLEEP)
  else
    (s1, Decision.Continue)

/-- MyServerCallbacks.onConnect (main.cpp lines 64-68): extend the deadline by
ACTIVITY_TIMEOUT and mark the device connected; no power command. -/
def onConnect (now : Int) (s : DeviceState) : DeviceState × PowerCmd :=
  ({ prolongSleep ACTIVITY_TIMEOUT now s with deviceConnected := true },
   PowerCmd.none)

/-- MyServerCallbacks.onDisconnect (main.cpp lines 77-82): mark the device
disconnected and unconditionally order a 10 ms deep sleep to reset the BLE
stack (the workaround described in the comment at lines 73-75). -/
def onDisconnect (s : DeviceState) : DeviceState × PowerCmd :=
  ({ s with deviceConnected := false }, PowerCmd.deepSleepMsec 10)

/-- updateRandTemp (main.cpp lines 88-93): extend the deadline by
ACTIVITY_TIMEOUT, then store (int8_t)(rand() % 40) - 10 into curTemp and
return it.  rand() is a nonnegative machine integer, modelled by r. -/
def updateRandTemp (r : Nat) (now : Int) (s : DeviceState) : DeviceState × Int :=
  let s1 := prolongSleep ACTIVITY_TIMEOUT now s
  let v : Int := ((r % 40 : Nat) : Int) - 10
  ({ s1 with curTemp := v }, v)

/-- TempCallBacks.onRead (main.cpp lines 102-104): produce a fresh value via
updateRandTemp and hand it to the stack; no power command is issued. -/
def onRead (r : Nat) (now : Int) (s : DeviceState) : DeviceState × Int × PowerCmd :=
  let p := updateRandTemp r now s
  (p.1, p.2, PowerCmd.none)

/-- toggleDutyCycle (main.cpp lines 162-166): flip the dutyCycle flag, then
extend the deadline by DUTY_CYCLE_AWAKE via prolongSleep. -/
def toggleDutyCycle (now : Int) (s : DeviceState) : DeviceState :=
  prolongSleep DUTY_CYCLE_AWAKE now { s with dutyCycle := !s.dutyCycle }

/-- Serialization of the RTC_DATA_ATTR region (main.cpp lines 45-50): the
four scalars, in declaration order, that the hardware keeps across a halt. -/
def serializeRTC (s : DeviceState) : Int × Int × Bool × Int :=
  (s.timestamp, s.sleepTarget, s.dutyCycle, s.curTemp)

/-- Modelled from the spec: the deep-sleep halt primitive and the
RTC_DATA_ATTR memory region are external to src/ (an OS/firmware call that
halts execution, with a designated memory region surviving the halt).  On
resume the RTC scalars are read back unchanged while ordinary globals such
as deviceConnected reinitialize to their boot values. -/
def resumeFromRTC : Int × Int × Bool × Int → DeviceState
  | (t, d, c, v) =>
    { timestamp := t, sleepTarget := d, dutyCycle := c, curTemp := v,
      deviceConnected := false }

/-- A full halt/resume cycle: serialize the RTC region, halt, resume. -/
def haltResume (s : DeviceState) : DeviceState := resumeFromRTC (serializeRTC s)

/-- Descriptor string advertised for the temperature characteristic
(main.cpp line 127). -/
def tempDescriptorValue : String := "Temp: [-10,40]°C"

/-- C1: loopEvaluate samples the clock into timestamp, returns
EnterSleep DUTY_CYCLE_SLEEP exactly when dutyCycle is set and the sampled
time exceeds sleepTarget, returns Continue otherwise, and leaves
sleepTarget, dutyCycle and curTemp untouched. -/
theorem C1_loopEvaluate_spec (s : DeviceState) (now : Int) :
    (loopEvaluate s now).1.timestamp = now ∧
    (loopEvaluate s now).1.sleepTarget = s.sleepTarget ∧
    (loopEvaluate s now).1.dutyCycle = s.dutyCycle ∧
    (loopEvaluate s now).1.curTemp = s.curTemp ∧
    ((loopEvaluate s now).2 = Decision.EnterSleep DUTY_CYCLE_SLEEP ↔
      (s.dutyCycle = true ∧ s.sleepTarget < now)) ∧
    ((loopEvaluate s now).2 = Decision.Continue ↔
      ¬ (s.dutyCycle = true ∧ s.sleepTarget < now)) := by
  by_cases h : s.dutyCycle = true ∧ s.sleepTarget < now <;>
    simp [loopEvaluate, h]

/-- Value returned by updateRandTemp, by unfolding. -/
theorem updateRandTemp_val (r : Nat) (now : Int) (s : DeviceState) :
    (updateRandTemp r now s).2 = ((r % 40 : Nat) : Int) - 10 := rfl

/-- curTemp stored by updateRandTemp, by unfolding. -/
theorem updateRandTemp_curTemp (r : Nat) (now : Int) (s : DeviceState) :
    (updateRandTemp r now s).1.curTemp = ((r % 40 : Nat) : Int) - 10 := rfl

/-- sleepTarget set by updateRandTemp, by unfolding. -/
theorem updateRandTemp_sleepTarget (r : Nat) (now : Int) (s : DeviceState) :
    (updateRandTemp r now s).1.sleepTarget = now + ACTIVITY_TIMEOUT := rfl

/-- Basic bounds on the random draw r % 40 viewed as an integer. -/
theorem randDraw_bounds (r : Nat) :
    (0 : Int) ≤ ((r % 40 : Nat) : Int) ∧ ((r % 40 : Nat) : Int) < 40 := by
  have h : r % 40 < 40 := Nat.mod_lt r (by decide)
  exact ⟨Int.natCast_nonneg _, by exact_mod_cast h⟩

/-- C2: prolongSleep sets the deadline to exactly the call time plus the
extension, re-anchoring to the call time; when the extension is shorter than
the time remaining on a further-out deadline, the deadline moves earlier. -/
theorem C2_prolongSleep_reanchors (e now : Int) (s : DeviceState) :
    (prolongSleep e now s).sleepTarget = now + e ∧
    (now + e < s.sleepTarget →
      (prolongSleep e now s).sleepTarget < s.sleepTarget) := by
  exact ⟨rfl, fun h => h⟩

/-- Witness for C2 at extension 3 and call time 50 against a deadline of
100: the new deadline is 53, strictly earlier than 100. -/
theorem C2_prolongSleep_reanchors_witness :
    (prolongSleep 3 50 { initialState with sleepTarget := 100 }).sleepTarget = 53 ∧
    (prolongSleep 3 50 { initialState with sleepTarget := 100 }).sleepTarget < 100 := by
  have h := C2_prolongSleep_reanchors 3 50 { initialState with sleepTarget := 100 }
  exact ⟨h.1.trans (by decide), h.2 (by decide)⟩

/-- C3: with extension e ≥ 0 granted at time t, a subsequent evaluation at a
sampled time tp ≤ t + e continues, and one at tp > t + e with dutyCycle
enabled enters sleep. -/
theorem C3_activity_window (e t tp : Int) (s : DeviceState) (he : 0 ≤ e) :
    ((tp ≤ t + e) →
      (loopEvaluate (prolongSleep e t s) tp).2 = Decision.Continue) ∧
    ((t + e < tp ∧ s.dutyCycle = true) →
      (loopEvaluate (prolongSleep e t s) tp).2 =
        Decision.EnterSleep DUTY_CYCLE_SLEEP) := by
  constructor
  · intro h
    have hc : ¬ (s.dutyCycle = true ∧ t + e < tp) := fun hc => absurd hc.2 (by omega)
    simp [loopEvaluate, prolongSleep, hc]
  · rintro ⟨h1, h2⟩
    have hc : s.dutyCycle = true ∧ t + e < tp := ⟨h2, h1⟩
    simp [loopEvaluate, prolongSleep, hc]

/-- Witness for C3 at e = 8, t = 100 with dutyCycle on: evaluation at 108
continues, evaluation at 109 enters sleep. -/
theorem C3_activity_window_witness :
    (loopEvaluate (prolongSleep 8 100 { initialState with dutyCycle := true }) 108).2
        = Decision.Continue ∧
    (loopEvaluate (prolongSleep 8 100 { initialState with dutyCycle := true }) 109).2
        = Decision.EnterSleep DUTY_CYCLE_SLEEP := by
  constructor
  · exact (C3_activity_window 8 100 108
      { initialState with dutyCycle := true } (by decide)).1 (by decide)
  · exact (C3_activity_window 8 100 109
      { initialState with dutyCycle := true } (by decide)).2 ⟨by decide, rfl⟩

/-- C4 counterexample: in the boot state, where dutyCycle is false, the
disconnect handler nevertheless commands a 10 ms deep sleep. -/
theorem C4_counterexample :
    initialState.dutyCycle = false ∧
    (onDisconnect initialState).2 = PowerCmd.deepSleepMsec 10 :=
  ⟨rfl, rfl⟩

/-- C4 (amended): with dutyCycle false, the control-loop evaluation and the
onConnect and onRead handlers never command sleep, but onDisconnect always
commands an immediate 10 ms deep sleep regardless of dutyCycle. -/
theorem C4_amended_no_sleep_except_disconnect (s : DeviceState) (now : Int)
    (r : Nat) (h : s.dutyCycle = false) :
    (loopEvaluate s now).2 = Decision.Continue ∧
    (onConnect now s).2 = PowerCmd.none ∧
    (onRead r now s).2.2 = PowerCmd.none ∧
    (onDisconnect s).2 = PowerCmd.deepSleepMsec 10 := by
  refine ⟨?_, rfl, rfl, rfl⟩
  simp [loopEvaluate, h]

/-- Witness for the amended C4 in the boot state at time 999. -/
theorem C4_amended_witness :
    (loopEvaluate initialState 999).2 = Decision.Continue ∧
    (onConnect 999 initialState).2 = PowerCmd.none ∧
    (onRead 7 999 initialState).2.2 = PowerCmd.none ∧
    (onDisconnect initialState).2 = PowerCmd.deepSleepMsec 10 :=
  C4_amended_no_sleep_except_disconnect initialState 999 7 rfl

/-- C5: with dutyCycle false, evaluation returns Continue for every deadline
value, the all-zero boot state with a long-past deadline included. -/
theorem C5_no_sleep_when_disabled (s : DeviceState) (now : Int)
    (h : s.dutyCycle = false) :
    (loopEvaluate s now).2 = Decision.Continue := by
  simp [loopEvaluate, h]

/-- Witness for C5 in the all-zero boot state, sampled far past the zero
deadline. -/
theorem C5_no_sleep_when_disabled_witness :
    (loopEvaluate initialState 1000000).2 = Decision.Continue :=
  C5_no_sleep_when_disabled initialState 1000000 rfl

/-- C6 counterexample: with the deadline at 100, recording activity with
extension 2 at time 10 re-anchors the deadline to 12; the claimed
monotonicity (new deadline at least the previous one) fails. -/
theorem C6_counterexample :
    ¬ (({ initialState with sleepTarget := 100 } : DeviceState).sleepTarget ≤
        (prolongSleep 2 10 { initialState with sleepTarget := 100 }).sleepTarget) := by
  decide

/-- C6 (amended): prolongSleep re-anchors the deadline to the call time plus
the extension; with a nonnegative extension the new deadline is never before
the call time, but it can be earlier than the previous deadline. -/
theorem C6_amended_reanchor (e now : Int) (s : DeviceState) (h : 0 ≤ e) :
    (prolongSleep e now s).sleepTarget = now + e ∧
    now ≤ (prolongSleep e now s).sleepTarget := by
  refine ⟨rfl, ?_⟩
  show now ≤ now + e
  omega

/-- Witness for the amended C6 at extension 2, call time 10, previous
deadline 100. -/
theorem C6_amended_reanchor_witness :
    (prolongSleep 2 10 { initialState with sleepTarget := 100 }).sleepTarget = 12 ∧
    (10 : Int) ≤ (prolongSleep 2 10 { initialState with sleepTarget := 100 }).sleepTarget := by
  have h := C6_amended_reanchor 2 10 { initialState with sleepTarget := 100 } (by decide)
  exact ⟨h.1.trans (by decide), h.2⟩

/-- C7: across a halt/resume cycle the four RTC-persistent fields are
unchanged — the serialized RTC region after resume is identical to the one
before the halt. -/
theorem C7_persistence_roundtrip (s : DeviceState) :
    (haltResume s).timestamp = s.timestamp ∧
    (haltResume s).sleepTarget = s.sleepTarget ∧
    (haltResume s).dutyCycle = s.dutyCycle ∧
    (haltResume s).curTemp = s.curTemp ∧
    serializeRTC (haltResume s) = serializeRTC s :=
  ⟨rfl, rfl, rfl, rfl, rfl⟩

/-- C8: toggling the duty cycle twice restores the original flag, and each
call applies the standard DUTY_CYCLE_AWAKE deadline extension anchored at
its own call time. -/
theorem C8_toggle_involution (t1 t2 : Int) (s : DeviceState) :
    (toggleDutyCycle t2 (toggleDutyCycle t1 s)).dutyCycle = s.dutyCycle ∧
    (toggleDutyCycle t1 s).sleepTarget = t1 + DUTY_CYCLE_AWAKE ∧
    (toggleDutyCycle t2 (toggleDutyCycle t1 s)).sleepTarget =
      t2 + DUTY_CYCLE_AWAKE := by
  refine ⟨?_, rfl, rfl⟩
  simp [toggleDutyCycle, prolongSleep]

/-- C9: updateRandTemp returns a value inside the declared [-10, 40] bounds,
stores it as curTemp, and extends the deadline to at least the sampled time
plus ACTIVITY_TIMEOUT. -/
theorem C9_produce_spec (r : Nat) (now : Int) (s : DeviceState) :
    (-10 ≤ (updateRandTemp r now s).2 ∧ (updateRandTemp r now s).2 ≤ 40) ∧
    (updateRandTemp r now s).1.curTemp = (updateRandTemp r now s).2 ∧
    now + ACTIVITY_TIMEOUT ≤ (updateRandTemp r now s).1.sleepTarget := by
  obtain ⟨h0, h40⟩ := randDraw_bounds r
  rw [updateRandTemp_val, updateRandTemp_curTemp, updateRandTemp_sleepTarget]
  exact ⟨⟨by omega, by omega⟩, rfl, le_refl _⟩

/-- C10: every generated value lies in the narrower interval [-10, 29] —
values in [30, 40] are never produced — even though the advertised
descriptor states the range as [-10, 40]. -/
theorem C10_narrow_range (r : Nat) (now : Int) (s : DeviceState) :
    (-10 ≤ (updateRandTemp r now s).2 ∧ (updateRandTemp r now s).2 ≤ 29) ∧
    ¬ (30 ≤ (updateRandTemp r now s).2) ∧
    tempDescriptorValue = "Temp: [-10,40]°C" := by
  obtain ⟨h0, h40⟩ := randDraw_bounds r
  rw [updateRandTemp_val]
  exact ⟨⟨by omega, by omega⟩, by omega, rfl⟩

end M5Temp
